import Mathlib

/-!
Verification of the index-controller excerpt of the meilisearch control plane.

The development shallowly embeds the two source files of the excerpt:
  - `src/index_controller/mod.rs` (the `IndexController` facade), and
  - `meilisearch-http/src/routes/indexes/mod.rs` (the HTTP index routes).

Rust `Result` values become `Except`; a call that can `panic!` (via
`Option::unwrap`, `Result::unwrap` or `todo!()`) is embedded with the
`Outcome` type below, whose `panicked` constructor records that the call
aborts the task instead of returning.  The actor modules
(`uuid_resolver`, `index_actor`, `update_actor`, `updates`) are not part of
the excerpt; where a claim depends on them they are modelled from the
specification's contracts, and each such definition is marked
`Modelled from the spec:` in its doc comment.
-/

/-- String constants used by the source, bound once so call sites use names. -/
def uidKey : String := "uid"

/-- The camelCase wire name of the primary-key field. -/
def primaryKeyKey : String := "primaryKey"

/-- The analytics event name published by the POST /indexes handler. -/
def indexCreatedEvent : String := "Index Created"

/-- A name used in concrete scenarios for an index that has no uuid binding. -/
def unknownIndexName : String := "unknown-index"

/-- A name used in concrete scenarios for an index. -/
def moviesName : String := "movies"

/-- A key outside the IndexCreateRequest schema, for concrete scenarios. -/
def extraKey : String := "extra"

/-- Error taxonomy of the controller layer, from the spec's section 7. -/
inductive CtrlError where
  | notFound
  | alreadyExists
  | actorUnavailable
  | transportError
  | engineError
  | unimplemented
deriving DecidableEq

/-- Internal stable identifier of an index (`uuid::Uuid` in the source),
abstracted to a wrapped natural number. -/
structure Uuid where
  id : Nat
deriving DecidableEq, BEq

/-- Result of a Rust call that may also abort by panicking: `ok` and `err`
are the two sides of the returned `anyhow::Result`, while `panicked` records
that the call ran into `unwrap` on a missing value or into `todo!()`. -/
inductive Outcome (α : Type) where
  | ok (a : α)
  | err (e : CtrlError)
  | panicked
deriving DecidableEq

/-- True exactly when an outcome is a returned typed error. -/
def Outcome.isTypedError {α : Type} : Outcome α → Bool
  | Outcome.err _ => true
  | _ => false

/-- True exactly when an outcome is a panic. -/
def Outcome.isPanic {α : Type} : Outcome α → Bool
  | Outcome.panicked => true
  | _ => false

/-- Modelled from the spec: opaque search query of the index engine
(`crate::index::SearchQuery`, outside the excerpt). -/
structure SearchQuery where
  q : Option String
deriving DecidableEq

/-- Modelled from the spec: opaque search result of the index engine
(`crate::index::SearchResult`, outside the excerpt). -/
structure SearchResult where
  hits : List String
deriving DecidableEq

/-- Modelled from the spec: a live index engine instance, opaque except for
its ability to answer read-only queries. -/
structure Engine where
  run : SearchQuery → SearchResult

/-- Modelled from the spec: the UuidResolver's name-to-uuid table, the only
authority on name-to-id binding (the `uuid_resolver` module is not in the
excerpt).  An association list from index names to uuids. -/
def ResolverTable : Type := List (String × Uuid)

/-- Modelled from the spec: `resolve(name) -> optional uuid` is a pure
lookup that returns nothing if the name is unbound and never mutates state.
The handle call returns a `Result`, `ok` when the actor is reachable. -/
def uuidResolverResolve (table : ResolverTable) (name : String) :
    Except CtrlError (Option Uuid) :=
  Except.ok (List.lookup name table)

/-- Modelled from the spec: `create(name) -> uuid` allocates a fresh uuid
bound to the name and fails with `AlreadyExists` if the name is already
bound.  `fresh` stands for the freshly allocated uuid. -/
def uuidResolverCreate (table : ResolverTable) (fresh : Uuid) (name : String) :
    Except CtrlError (Uuid × ResolverTable) :=
  match List.lookup name table with
  | some _ => Except.error CtrlError.alreadyExists
  | none => Except.ok (fresh, (name, fresh) :: table)

/-- Modelled from the spec: the IndexActor's table of live engine instances
keyed by uuid (the `index_actor` module is not in the excerpt). -/
def LiveIndexes : Type := List (Uuid × Engine)

/-- Modelled from the spec: `IndexActor::search(uuid, query)` executes a
read-only query against the engine instance for the uuid and fails with
`IndexNotFound` (a `NotFound` kind) if the uuid has no live instance. -/
def indexActorSearch (live : LiveIndexes) (uuid : Uuid) (query : SearchQuery) :
    Except CtrlError SearchResult :=
  match List.lookup uuid live with
  | none => Except.error CtrlError.notFound
  | some engine => Except.ok (engine.run query)

/-- Index metadata, from the source's `IndexMetadata` struct: uuid, creation
and update instants (abstracted to naturals) and optional primary key. -/
structure IndexMetadata where
  uuid : Uuid
  created_at : Nat
  updated_at : Nat
  primary_key : Option String
deriving DecidableEq

/-- Modelled from the spec: `IndexActor::create_index(uuid, primary_key)`
instantiates a new engine instance for the uuid and returns its metadata,
with both instants set to the creation time. -/
def indexActorCreateIndex (uuid : Uuid) (primary_key : Option String)
    (now : Nat) : IndexMetadata :=
  IndexMetadata.mk uuid now now primary_key

/-- The source's `IndexSettings` struct: transient request payload with an
optional name and an optional primary key. -/
structure IndexSettings where
  name : Option String
  primary_key : Option String
deriving DecidableEq

/-- Embedding of `IndexController::search` (src/index_controller/mod.rs,
lines 156-160).  The source reads
`self.uuid_resolver.resolve(name).await.unwrap().unwrap()`: the first
`unwrap` panics if the resolver call returned an error, the second panics
if the name is unbound (`None`); otherwise the search is delegated to the
index actor and its error, if any, is propagated with `?`. -/
def IndexController.search (table : ResolverTable) (live : LiveIndexes)
    (name : String) (query : SearchQuery) : Outcome SearchResult :=
  match uuidResolverResolve table name with
  | Except.error _ => Outcome.panicked
  | Except.ok none => Outcome.panicked
  | Except.ok (some uuid) =>
    match indexActorSearch live uuid query with
    | Except.error e => Outcome.err e
    | Except.ok result => Outcome.ok result

/-- Embedding of `IndexController::create_index` (src/index_controller/mod.rs,
lines 121-126).  The source destructures the settings and calls
`name.unwrap()`, which panics when the name is absent; otherwise it creates
the uuid binding and delegates to the index actor, propagating errors. -/
def IndexController.create_index (table : ResolverTable) (fresh : Uuid)
    (now : Nat) (index_settings : IndexSettings) : Outcome IndexMetadata :=
  match index_settings.name with
  | none => Outcome.panicked
  | some name =>
    match uuidResolverCreate table fresh name with
    | Except.error e => Outcome.err e
    | Except.ok created =>
      Outcome.ok (indexActorCreateIndex created.fst index_settings.primary_key now)

/-- C1: for every index name with no uuid binding, `IndexController::search`
panics (the second `unwrap` hits `None`) instead of returning a `NotFound`
error value, contradicting the claim that it fails with `NotFound` and never
panics. -/
theorem search_unresolved_name_panics (table : ResolverTable)
    (live : LiveIndexes) (name : String) (query : SearchQuery)
    (h : List.lookup name table = none) :
    IndexController.search table live name query = Outcome.panicked := by
  unfold IndexController.search uuidResolverResolve
  rw [h]

/-- Witness for C1: searching the concrete unbound name on an empty
resolver table panics. -/
theorem search_unresolved_name_panics_witness :
    IndexController.search [] [] unknownIndexName (SearchQuery.mk none) =
      Outcome.panicked :=
  search_unresolved_name_panics [] [] unknownIndexName (SearchQuery.mk none) rfl

/-- C2: for every settings value whose name field is absent,
`IndexController::create_index` panics (`Option::unwrap` on `None`) instead
of returning an error result, contradicting the claim that it fails with an
error rather than crashing. -/
theorem create_index_missing_name_panics (table : ResolverTable)
    (fresh : Uuid) (now : Nat) (primary_key : Option String) :
    IndexController.create_index table fresh now
      (IndexSettings.mk none primary_key) = Outcome.panicked :=
  rfl

/-- Companion fact recorded for C2's context: when the name is present and
unbound, `create_index` does resolve the uuid and delegate creation to the
index actor, returning the metadata built from the fresh uuid. -/
theorem create_index_present_name_delegates (table : ResolverTable)
    (fresh : Uuid) (now : Nat) (name : String) (primary_key : Option String)
    (h : List.lookup name table = none) :
    IndexController.create_index table fresh now
      (IndexSettings.mk (some name) primary_key) =
      Outcome.ok (indexActorCreateIndex fresh primary_key now) := by
  unfold IndexController.create_index uuidResolverCreate
  simp [h]

/-- Witness for the companion fact: creating a concretely named index on an
empty table succeeds with the fresh uuid's metadata. -/
theorem create_index_present_name_delegates_witness :
    IndexController.create_index [] (Uuid.mk 0) 5
      (IndexSettings.mk (some moviesName) none) =
      Outcome.ok (indexActorCreateIndex (Uuid.mk 0) none 5) :=
  create_index_present_name_delegates [] (Uuid.mk 0) 5 moviesName none rfl

/-- Control-flow steps of `IndexController::add_documents`
(src/index_controller/mod.rs, lines 78-107), in source order. -/
inductive AddDocStep where
  | resolveUuid (index : String)
  | buildMeta
  | createChannel (capacity : Nat)
  | spawnForwardingTask
  | awaitUpdateRegistration
deriving DecidableEq, BEq

/-- The straight-line trace of `add_documents`: resolve (or create) the
uuid, build the update metadata, open the bounded `mpsc::channel(10)`,
`tokio::task::spawn_local` the payload-forwarding task, and only then await
`update_handle.update`. -/
def addDocumentsSteps (index : String) : List AddDocStep :=
  [AddDocStep.resolveUuid index, AddDocStep.buildMeta,
   AddDocStep.createChannel 10, AddDocStep.spawnForwardingTask,
   AddDocStep.awaitUpdateRegistration]

/-- One step strictly precedes another in a trace. -/
def stepBefore (a b : AddDocStep) (trace : List AddDocStep) : Prop :=
  ∃ i j, i < j ∧ trace.get? i = some a ∧ trace.get? j = some b

/-- Capacities of the channels opened along a trace. -/
def channelCapacities (trace : List AddDocStep) : List Nat :=
  trace.filterMap fun s =>
    match s with
    | AddDocStep.createChannel c => some c
    | _ => none

/-- C3: in every execution of `add_documents`, the payload-forwarding task
is spawned strictly before the update-registration call is awaited, and
each of the two steps occurs exactly once in the trace. -/
theorem add_documents_spawns_forwarder_before_registration (index : String) :
    stepBefore AddDocStep.spawnForwardingTask
      AddDocStep.awaitUpdateRegistration (addDocumentsSteps index) ∧
    (addDocumentsSteps index).count AddDocStep.spawnForwardingTask = 1 ∧
    (addDocumentsSteps index).count AddDocStep.awaitUpdateRegistration = 1 :=
  And.intro (Exists.intro 3 (Exists.intro 4 (And.intro (by omega)
    (And.intro rfl rfl)))) (And.intro rfl rfl)

/-- C6: the intermediate channel built by `add_documents` between the
payload source and the update actor is the only one in the trace and is
bounded with capacity exactly 10. -/
theorem add_documents_channel_capacity_ten (index : String) :
    channelCapacities (addDocumentsSteps index) = [10] :=
  rfl

/-- Modelled from the spec: settings object applied by a settings update
(`crate::index::Settings`, outside the excerpt), abstracted. -/
structure SettingsObj where
  tag : Nat
deriving DecidableEq

/-- Modelled from the spec: facets object (`crate::index::Facets`, outside
the excerpt), abstracted. -/
structure FacetsObj where
  tag : Nat
deriving DecidableEq

/-- The source's document-indexing method (`milli::update::IndexDocumentsMethod`). -/
inductive IndexDocumentsMethod where
  | replaceDocuments
  | updateDocuments
deriving DecidableEq

/-- The source's payload encoding (`milli::update::UpdateFormat`), abstracted
to a tag. -/
structure UpdateFormat where
  tag : Nat
deriving DecidableEq

/-- The source's `UpdateMeta` enum: one variant per kind of update. -/
inductive UpdateMeta where
  | documentsAddition (method : IndexDocumentsMethod) (format : UpdateFormat)
      (primary_key : Option String)
  | clearDocuments
  | deleteDocuments
  | settings (s : SettingsObj)
  | facets (f : FacetsObj)
deriving DecidableEq

/-- Modelled from the spec: the update-status state machine, parameterized
by metadata, result and error types (the `updates` module is not in the
excerpt). -/
inductive UpdateStatus (M R E : Type) where
  | enqueued (meta : M)
  | processing (meta : M)
  | processed (meta : M) (result : R)
  | failed (meta : M) (error : E)
deriving DecidableEq

/-- Modelled from the spec: engine-specific update result
(`crate::index::UpdateResult`, outside the excerpt), abstracted. -/
structure UpdateResult where
  tag : Nat
deriving DecidableEq

/-- The controller's concrete update-status type, as in the source's
`pub type UpdateStatus = updates::UpdateStatus<UpdateMeta, UpdateResult, String>`. -/
def CtrlUpdateStatus : Type := UpdateStatus UpdateMeta UpdateResult String

/-- Embedding of the stub `IndexController::clear_documents`: the body is
`todo!()`, which panics. -/
def IndexController.clear_documents (index : String) :
    Outcome CtrlUpdateStatus :=
  Outcome.panicked

/-- Embedding of the stub `IndexController::delete_documents` (`todo!()`). -/
def IndexController.delete_documents (index : String)
    (document_ids : List String) : Outcome CtrlUpdateStatus :=
  Outcome.panicked

/-- Embedding of the stub `IndexController::update_settings` (`todo!()`). -/
def IndexController.update_settings (index_uid : String) (s : SettingsObj) :
    Outcome CtrlUpdateStatus :=
  Outcome.panicked

/-- Embedding of the stub `IndexController::delete_index` (`todo!()`). -/
def IndexController.delete_index (index_uid : String) : Outcome Unit :=
  Outcome.panicked

/-- Embedding of the stub `IndexController::swap_indices` (`todo!()`). -/
def IndexController.swap_indices (index1_uid : String) (index2_uid : String) :
    Outcome Unit :=
  Outcome.panicked

/-- Embedding of the stub `IndexController::update_status` (`todo!()`). -/
def IndexController.update_status (index : String) (id : Nat) :
    Outcome (Option CtrlUpdateStatus) :=
  Outcome.panicked

/-- Embedding of the stub `IndexController::all_update_status` (`todo!()`). -/
def IndexController.all_update_status (index : String) :
    Outcome (List CtrlUpdateStatus) :=
  Outcome.panicked

/-- Embedding of the stub `IndexController::list_indexes` (`todo!()`). -/
def IndexController.list_indexes : Outcome (List IndexMetadata) :=
  Outcome.panicked

/-- Embedding of the stub `IndexController::update_index` (`todo!()`). -/
def IndexController.update_index (name : String)
    (index_settings : IndexSettings) : Outcome IndexMetadata :=
  Outcome.panicked

/-- The HTTP route's `UpdateIndexRequest` body: optional uid and optional
primary key. -/
structure UpdateIndexRequest where
  uid : Option String
  primary_key : Option String
deriving DecidableEq

/-- A JSON response body produced by a route handler, abstracted to which
constructor of the response it carries. -/
structure TaskResponse where
  taskUid : Nat
deriving DecidableEq

/-- HTTP responses produced by the index routes that the claims mention. -/
inductive HttpIndexResponse where
  | created (task : TaskResponse)
  | okTask (task : TaskResponse)
deriving DecidableEq

/-- Embedding of the stub PUT /indexes handler `update_index`
(meilisearch-http/src/routes/indexes/mod.rs, lines 104-128): the body is
`todo!()`, which panics; the commented-out implementation is dead code. -/
def Routes.update_index (path : String) (body : UpdateIndexRequest) :
    Outcome HttpIndexResponse :=
  Outcome.panicked

/-- Counterexample for C5: the concrete stub call
`IndexController::clear_documents` panics instead of returning a typed
error, so no stub surfaces the `Unimplemented` error kind to its caller. -/
theorem clear_documents_stub_panics_not_typed_error :
    Outcome.isPanic (IndexController.clear_documents moviesName) = true ∧
    Outcome.isTypedError (IndexController.clear_documents moviesName) = false :=
  And.intro rfl rfl

/-- C5 amended: every stub operation reachable from the public surface (the
PUT /indexes handler and the controller's clear/delete/settings/status/list
and related stubs) panics via `todo!()` when invoked, for every input; none
returns a typed `Unimplemented` error. -/
theorem all_stub_operations_panic (index : String) (ids : List String)
    (s : SettingsObj) (id : Nat) (settings : IndexSettings)
    (body : UpdateIndexRequest) :
    Outcome.isPanic (IndexController.clear_documents index) = true ∧
    Outcome.isPanic (IndexController.delete_documents index ids) = true ∧
    Outcome.isPanic (IndexController.update_settings index s) = true ∧
    Outcome.isPanic (IndexController.delete_index index) = true ∧
    Outcome.isPanic (IndexController.swap_indices index index) = true ∧
    Outcome.isPanic (IndexController.update_status index id) = true ∧
    Outcome.isPanic (IndexController.all_update_status index) = true ∧
    Outcome.isPanic IndexController.list_indexes = true ∧
    Outcome.isPanic (IndexController.update_index index settings) = true ∧
    Outcome.isPanic (Routes.update_index index body) = true := by
  refine ⟨rfl, rfl, rfl, rfl, rfl, rfl, rfl, rfl, rfl, rfl⟩

/-- State of the payload-forwarding task spawned by `add_documents`
(src/index_controller/mod.rs, lines 93-102) after it has drained its
stream: the chunks actually delivered into the channel, the number of
stream items the loop consumed, and whether the task ran to completion. -/
structure ForwardResult (B E : Type) where
  delivered : List (Except E B)
  consumed : Nat
  completed : Bool

/-- Embedding of the spawned forwarding loop.  The stream is the list of
chunk results the payload yields; `alive i` models whether the receiving
half of the channel still exists when the i-th send happens (a send to a
dropped receiver fails).  The source ignores the value returned by every
`sender.send(..).await` and never breaks out of the `while let` loop, so
the run consumes the whole stream and completes regardless of `alive`. -/
def forwardTask {B E : Type} (alive : Nat → Bool) :
    List (Except E B) → Nat → ForwardResult B E
  | [], _ => ForwardResult.mk [] 0 true
  | chunk :: rest, i =>
    let tail := forwardTask alive rest (i + 1)
    ForwardResult.mk ((if alive i then [chunk] else []) ++ tail.delivered)
      (tail.consumed + 1) tail.completed

/-- The chunks the forwarding task sends when the receiver stays alive for
the whole upload. -/
def forwardSends {B E : Type} (payload : List (Except E B)) :
    List (Except E B) :=
  (forwardTask (fun _ => true) payload 0).delivered

/-- What the channel's consumer observes: a message per delivered chunk,
then the channel closing when the task finishes and drops the sender. -/
inductive ChanMsg (B E : Type) where
  | item (x : Except E B)
  | closed

/-- The consumer-side view of an upload with a live receiver. -/
def consumerView {B E : Type} (payload : List (Except E B)) :
    List (ChanMsg B E) :=
  (forwardSends payload).map ChanMsg.item ++ [ChanMsg.closed]

/-- Decides the terminating-signal clause of claim C4 on the sent chunks:
every error value must be the final chunk of the upload, so the consumer
sees either a clean end-of-stream or a single erroring end-of-stream. -/
def errorsTerminal {B E : Type} : List (Except E B) → Bool
  | [] => true
  | Except.error _ :: rest => rest.isEmpty
  | Except.ok _ :: rest => errorsTerminal rest

/-- The C4 claim, decided on a payload: each transport error is pushed onto
the channel as a terminal value, so the erroring end-of-stream is unique
and final. -/
def c4ClaimHolds {B E : Type} (payload : List (Except E B)) : Bool :=
  errorsTerminal (forwardSends payload)

/-- The forwarding loop always runs to completion: it never fails and never
breaks out early, whatever happens to the receiving half. -/
theorem forwardTask_completed {B E : Type} (alive : Nat → Bool)
    (payload : List (Except E B)) (i : Nat) :
    (forwardTask alive payload i).completed = true := by
  induction payload generalizing i with
  | nil => rfl
  | cons chunk rest ih => simpa [forwardTask] using ih (i + 1)

/-- The forwarding loop consumes every item of the payload stream,
whatever happens to the receiving half. -/
theorem forwardTask_consumed {B E : Type} (alive : Nat → Bool)
    (payload : List (Except E B)) (i : Nat) :
    (forwardTask alive payload i).consumed = payload.length := by
  induction payload generalizing i with
  | nil => rfl
  | cons chunk rest ih => simpa [forwardTask] using ih (i + 1)

/-- With a live receiver, the forwarding loop delivers every chunk of the
payload, in order, errors included. -/
theorem forwardTask_live_delivers {B E : Type}
    (payload : List (Except E B)) (i : Nat) :
    (forwardTask (fun _ => true) payload i).delivered = payload := by
  induction payload generalizing i with
  | nil => rfl
  | cons chunk rest ih => simp [forwardTask, ih (i + 1)]

/-- If the receiving half is dropped after the k-th send, exactly the first
k chunks are delivered and the rest are silently discarded. -/
theorem forwardTask_drop_after {B E : Type} (k : Nat)
    (payload : List (Except E B)) (i : Nat) :
    (forwardTask (fun j => decide (j < k)) payload i).delivered =
      payload.take (k - i) := by
  induction payload generalizing i with
  | nil => simp [forwardTask]
  | cons chunk rest ih =>
    by_cases h : i < k
    · have hk : k - i = (k - (i + 1)) + 1 := by omega
      simp [forwardTask, h, ih (i + 1), hk]
    · have hk : k - i = 0 := by omega
      have hk1 : k - (i + 1) = 0 := by omega
      simp [forwardTask, h, ih (i + 1), hk, hk1]

/-- Counterexample for C4: a payload stream that yields a transport error
followed by a further chunk.  The forwarding task pushes the error and then
keeps forwarding, so the error is not a terminating signal: the consumer
observes the error, then another chunk, then the close. -/
theorem c4_error_not_terminal_counterexample :
    c4ClaimHolds
      ([Except.error 0, Except.ok 1] : List (Except Nat Nat)) = false :=
  rfl

/-- C4 amended: the forwarding task forwards every chunk of the payload —
every transport error included, none discarded while the receiver is alive
— in order onto the channel, and the consumer observes the channel close
exactly once, after the whole payload; an error does not terminate
forwarding, so chunks enqueued after an error are still delivered. -/
theorem forwarding_preserves_payload_and_closes_once {B E : Type}
    (payload : List (Except E B)) :
    forwardSends payload = payload ∧
    consumerView payload = payload.map ChanMsg.item ++ [ChanMsg.closed] := by
  have h : forwardSends payload = payload := forwardTask_live_delivers payload 0
  exact And.intro h (by rw [consumerView, h])

/-- C10: the forwarding task ignores the result of every send.  For every
behaviour of the receiving half it completes and consumes the whole payload
stream, and when the receiver is dropped after the k-th delivery the
remaining chunks and errors are silently discarded rather than stopping the
task or failing it. -/
theorem forwarding_drains_despite_dropped_receiver {B E : Type}
    (alive : Nat → Bool) (k : Nat) (payload : List (Except E B)) :
    (forwardTask alive payload 0).completed = true ∧
    (forwardTask alive payload 0).consumed = payload.length ∧
    (forwardTask (fun j => decide (j < k)) payload 0).delivered =
      payload.take k := by
  refine ⟨forwardTask_completed alive payload 0,
    forwardTask_consumed alive payload 0, ?_⟩
  simpa using forwardTask_drop_after k payload 0

/-- The registered update kinds used by the index routes
(`meilisearch_lib::index_controller::Update`; only the variants the excerpt
constructs). -/
inductive Update where
  | createIndex (primary_key : Option String)
  | deleteIndex
deriving DecidableEq

/-- Observable side effects of a route handler, in the order they happen:
a fire-and-forget analytics publication, or an invocation of
`register_update` on the MeiliSearch service. -/
inductive HandlerEvent where
  | analyticsPublish (event : String) (primary_key : Option String)
  | registerUpdate (uid : String) (update : Update)
deriving DecidableEq

/-- The source's `IndexCreateRequest` body: a required uid and an optional
primary key, camelCase on the wire, unknown fields denied. -/
structure IndexCreateRequest where
  uid : String
  primary_key : Option String
deriving DecidableEq

/-- A JSON value of a request-body field, as far as the excerpt's schemas
inspect one: a string, a null, a number, or anything else. -/
inductive JVal where
  | str (s : String)
  | null
  | num (n : Int)
deriving DecidableEq

/-- Deserialization failures of a JSON body against a derived schema. -/
inductive ParseErr where
  | unknownField (k : String)
  | duplicateField (k : String)
  | missingField (k : String)
  | typeError (k : String)
deriving DecidableEq

/-- Errors a route can answer with: a body-deserialization failure (actix
rejects the request before the handler runs) or a service error propagated
from `register_update` by `?`. -/
inductive RouteError where
  | badRequest (e : ParseErr)
  | service (e : CtrlError)
deriving DecidableEq

/-- Embedding of the POST /indexes handler `create_index`
(meilisearch-http/src/routes/indexes/mod.rs, lines 56-76).  `register`
stands for `MeiliSearch::register_update`, which lives outside the excerpt
and is treated as an oracle.  The handler destructures the body, publishes
the analytics event carrying the chosen primary key (`Analytics::publish`
returns unit, so the handler can neither block on nor fail with the sink),
then registers a create-index update for the uid and answers 201 Created
with the task, or propagates the registration error. -/
def Routes.create_index
    (register : String → Update → Except CtrlError TaskResponse)
    (body : IndexCreateRequest) :
    List HandlerEvent × Except RouteError HttpIndexResponse :=
  let update := Update.createIndex body.primary_key
  let events := [HandlerEvent.analyticsPublish indexCreatedEvent body.primary_key,
                 HandlerEvent.registerUpdate body.uid update]
  match register body.uid update with
  | Except.error e => (events, Except.error (RouteError.service e))
  | Except.ok task => (events, Except.ok (HttpIndexResponse.created task))

/-- C7: for every request body on which update registration succeeds with a
task, the POST /indexes handler registers a create-index update for the
body's uid, answers 201 Created carrying that task, and publishes the
"Index Created" analytics event carrying the chosen primary key; the
response is determined by the registration outcome alone, independent of
the analytics sink. -/
theorem create_index_success_response
    (register : String → Update → Except CtrlError TaskResponse)
    (body : IndexCreateRequest) (task : TaskResponse)
    (h : register body.uid (Update.createIndex body.primary_key) =
      Except.ok task) :
    Routes.create_index register body =
      ([HandlerEvent.analyticsPublish indexCreatedEvent body.primary_key,
        HandlerEvent.registerUpdate body.uid
          (Update.createIndex body.primary_key)],
       Except.ok (HttpIndexResponse.created task)) := by
  simp [Routes.create_index, h]

/-- Witness for C7: a concrete request whose registration yields task 7 is
answered with 201 Created and the two expected events. -/
theorem create_index_success_response_witness :
    Routes.create_index (fun _ _ => Except.ok (TaskResponse.mk 7))
      (IndexCreateRequest.mk moviesName none) =
      ([HandlerEvent.analyticsPublish indexCreatedEvent none,
        HandlerEvent.registerUpdate moviesName (Update.createIndex none)],
       Except.ok (HttpIndexResponse.created (TaskResponse.mk 7))) :=
  create_index_success_response (fun _ _ => Except.ok (TaskResponse.mk 7))
    (IndexCreateRequest.mk moviesName none) (TaskResponse.mk 7) rfl

/-- C8: the POST /indexes handler publishes the "Index Created" analytics
event unconditionally, before the registration call, for every registration
oracle; in particular when registration fails the handler still emitted the
event first and then returns the error. -/
theorem create_index_publishes_before_register
    (register : String → Update → Except CtrlError TaskResponse)
    (body : IndexCreateRequest) (e : CtrlError) :
    (Routes.create_index register body).fst =
      [HandlerEvent.analyticsPublish indexCreatedEvent body.primary_key,
       HandlerEvent.registerUpdate body.uid
         (Update.createIndex body.primary_key)] ∧
    Routes.create_index (fun _ _ => Except.error e) body =
      ([HandlerEvent.analyticsPublish indexCreatedEvent body.primary_key,
        HandlerEvent.registerUpdate body.uid
          (Update.createIndex body.primary_key)],
       Except.error (RouteError.service e)) := by
  constructor
  · cases hr : register body.uid (Update.createIndex body.primary_key) <;>
      simp [Routes.create_index, hr]
  · simp [Routes.create_index]

/-- Deserialization of `IndexCreateRequest` per the serde derive declared in
the source (`rename_all = camelCase`, `deny_unknown_fields`; `uid: String`
required, `primary_key: Option<String>` defaulting to `None`): fields are
consumed in order, an unknown or duplicated key or a wrongly typed value is
rejected, and at end of input a missing uid is rejected.  `uidSeen` and
`pkSeen` record the values already consumed. -/
def parseFields : List (String × JVal) → Option String → Option (Option String) →
    Except ParseErr IndexCreateRequest
  | [], uidSeen, pkSeen =>
    match uidSeen with
    | none => Except.error (ParseErr.missingField uidKey)
    | some uid => Except.ok (IndexCreateRequest.mk uid (pkSeen.getD none))
  | (k, v) :: rest, uidSeen, pkSeen =>
    if k = uidKey then
      match uidSeen with
      | some _ => Except.error (ParseErr.duplicateField uidKey)
      | none =>
        match v with
        | JVal.str s => parseFields rest (some s) pkSeen
        | _ => Except.error (ParseErr.typeError uidKey)
    else if k = primaryKeyKey then
      match pkSeen with
      | some _ => Except.error (ParseErr.duplicateField primaryKeyKey)
      | none =>
        match v with
        | JVal.str s => parseFields rest uidSeen (some (some s))
        | JVal.null => parseFields rest uidSeen (some none)
        | _ => Except.error (ParseErr.typeError primaryKeyKey)
    else Except.error (ParseErr.unknownField k)

/-- Deserialization of a whole POST /indexes body. -/
def parseIndexCreateRequest (rawBody : List (String × JVal)) :
    Except ParseErr IndexCreateRequest :=
  parseFields rawBody none none

/-- The POST /indexes route as actix runs it: the `web::Json` extractor
deserializes the body, rejecting the request before the handler runs when
deserialization fails, and otherwise the handler executes. -/
def Routes.create_index_route
    (register : String → Update → Except CtrlError TaskResponse)
    (rawBody : List (String × JVal)) :
    List HandlerEvent × Except RouteError HttpIndexResponse :=
  match parseIndexCreateRequest rawBody with
  | Except.error e => ([], Except.error (RouteError.badRequest e))
  | Except.ok body => Routes.create_index register body

/-- A body containing a key outside the schema is rejected by the
deserializer, whatever was consumed so far. -/
theorem parseFields_unknown_key_fails (l : List (String × JVal))
    (uidSeen : Option String) (pkSeen : Option (Option String))
    (h : ∃ kv ∈ l, kv.fst ≠ uidKey ∧ kv.fst ≠ primaryKeyKey) :
    ∃ e, parseFields l uidSeen pkSeen = Except.error e := by
  induction l generalizing uidSeen pkSeen with
  | nil => simp at h
  | cons kv rest ih =>
    obtain ⟨k, v⟩ := kv
    rcases h with ⟨kw, hmem, h1, h2⟩
    rcases List.mem_cons.mp hmem with heq | hrest
    · subst heq
      exact ⟨ParseErr.unknownField k, by simp [parseFields, h1, h2]⟩
    · by_cases hk : k = uidKey
      · subst hk
        cases uidSeen with
        | some u => exact ⟨ParseErr.duplicateField uidKey, by simp [parseFields]⟩
        | none =>
          cases v with
          | str s =>
            obtain ⟨e, he⟩ := ih (some s) pkSeen ⟨kw, hrest, h1, h2⟩
            exact ⟨e, by simpa [parseFields] using he⟩
          | null => exact ⟨ParseErr.typeError uidKey, by simp [parseFields]⟩
          | num n => exact ⟨ParseErr.typeError uidKey, by simp [parseFields]⟩
      · by_cases hpk : k = primaryKeyKey
        · subst hpk
          cases pkSeen with
          | some p =>
            exact ⟨ParseErr.duplicateField primaryKeyKey,
              by simp [parseFields, hk]⟩
          | none =>
            cases v with
            | str s =>
              obtain ⟨e, he⟩ := ih uidSeen (some (some s)) ⟨kw, hrest, h1, h2⟩
              exact ⟨e, by simpa [parseFields, hk] using he⟩
            | null =>
              obtain ⟨e, he⟩ := ih uidSeen (some none) ⟨kw, hrest, h1, h2⟩
              exact ⟨e, by simpa [parseFields, hk] using he⟩
            | num n =>
              exact ⟨ParseErr.typeError primaryKeyKey,
                by simp [parseFields, hk]⟩
        · exact ⟨ParseErr.unknownField k, by simp [parseFields, hk, hpk]⟩

/-- A body with no uid field is rejected by the deserializer. -/
theorem parseFields_missing_uid_fails (l : List (String × JVal))
    (pkSeen : Option (Option String))
    (h : ∀ v, (uidKey, v) ∉ l) :
    ∃ e, parseFields l none pkSeen = Except.error e := by
  induction l generalizing pkSeen with
  | nil => exact ⟨ParseErr.missingField uidKey, rfl⟩
  | cons kv rest ih =>
    obtain ⟨k, v⟩ := kv
    have hk : ¬ k = uidKey := by
      intro he
      exact h v (by rw [← he]; exact List.mem_cons_self _ _)
    have hrest : ∀ w, (uidKey, w) ∉ rest :=
      fun w hw => h w (List.mem_cons_of_mem _ hw)
    by_cases hpk : k = primaryKeyKey
    · subst hpk
      cases pkSeen with
      | some p =>
        exact ⟨ParseErr.duplicateField primaryKeyKey, by simp [parseFields, hk]⟩
      | none =>
        cases v with
        | str s =>
          obtain ⟨e, he⟩ := ih (some (some s)) hrest
          exact ⟨e, by simpa [parseFields, hk] using he⟩
        | null =>
          obtain ⟨e, he⟩ := ih (some none) hrest
          exact ⟨e, by simpa [parseFields, hk] using he⟩
        | num n =>
          exact ⟨ParseErr.typeError primaryKeyKey, by simp [parseFields, hk]⟩
    · exact ⟨ParseErr.unknownField k, by simp [parseFields, hk, hpk]⟩

/-- C9: every POST /indexes body containing a field other than uid and
primaryKey, and every body missing the uid field, is rejected by
deserialization: the route answers an error and the handler never runs, so
no analytics or registration side effect occurs. -/
theorem create_index_rejects_malformed_body
    (register : String → Update → Except CtrlError TaskResponse)
    (rawBody : List (String × JVal))
    (h : (∃ kv ∈ rawBody, kv.fst ≠ uidKey ∧ kv.fst ≠ primaryKeyKey) ∨
         ∀ v, (uidKey, v) ∉ rawBody) :
    ∃ e, Routes.create_index_route register rawBody =
      ([], Except.error (RouteError.badRequest e)) := by
  have hfail : ∃ e, parseIndexCreateRequest rawBody = Except.error e := by
    cases h with
    | inl h1 => exact parseFields_unknown_key_fails rawBody none none h1
    | inr h2 => exact parseFields_missing_uid_fails rawBody none h2
  obtain ⟨e, he⟩ := hfail
  exact ⟨e, by simp [Routes.create_index_route, he]⟩

/-- Witness for C9: a concrete body whose only field is outside the schema
is rejected with no side effect. -/
theorem create_index_rejects_malformed_body_witness :
    ∃ e, Routes.create_index_route (fun _ _ => Except.ok (TaskResponse.mk 7))
      [(extraKey, JVal.null)] = ([], Except.error (RouteError.badRequest e)) :=
  create_index_rejects_malformed_body
    (fun _ _ => Except.ok (TaskResponse.mk 7)) [(extraKey, JVal.null)]
    (Or.inl (by decide))
